import Mathlib

/-!
Verification development for the HDB resale-price MCP server
(`src/Singapore-HDB/HDB-Resale-Price-MCP.py`).

The Python program is shallowly embedded below.  Records of the remote
dataset are association lists from field name to string value (the
data.gov.sg datastore returns every field of this dataset as a string).
The remote paginated endpoint is abstracted as a function from
(offset, limit, filters) to a page outcome; the five outcome
constructors correspond one-to-one to the branches the Python code
distinguishes (HTTP status other than 200, upstream success flag false,
a good page, an asyncio timeout, any other raised exception).
Loops of the source are embedded as fuel-indexed recursions; every
theorem either supplies enough fuel for the concrete scenario at hand
or holds for all fuel values.
-/

namespace HDBResale

/-- One row of the remote dataset: a mapping from field name to string
value, as returned by the data.gov.sg datastore for this dataset. -/
abbrev DataRecord := List (String × String)

/-- Field name of the partition (month) field. -/
def monthField : String := "month"

/-- Field name of the resale price field. -/
def priceField : String := "resale_price"

/-- Field name of the lease commencement field. -/
def leaseField : String := "lease_commence_date"

/-- Accumulating decimal parse of a digit string; `none` on the first
non-digit character. -/
def digitsToNat : List Char → Option Nat
  | [] => none
  | cs => cs.foldl (fun acc c =>
      match acc with
      | none => none
      | some n => if c.isDigit then some (n * 10 + (c.toNat - 48)) else none)
      (some 0)

/-- Model of Python `float(s)` on the string values of this dataset,
restricted to (optionally negative) integer literals, which is the
shape of every numeric value the claims exercise: `some n` when the
string is an integer literal, `none` when conversion raises
`ValueError`. -/
def pyFloat (s : String) : Option Int :=
  match s.data with
  | [] => none
  | '-' :: rest => (digitsToNat rest).map (fun n => -(n : Int))
  | cs => (digitsToNat cs).map (fun n => (n : Int))

/-- Python `s.startswith(pre)`. -/
def strStartsWith (s pre : String) : Bool := pre.data.isPrefixOf s.data

/-- Model of `r.get("month", "").startswith(year)` from the source: the
client-side partition check applied by every retrieval tier. -/
def matchesYear (year : String) (r : DataRecord) : Bool :=
  strStartsWith ((r.lookup monthField).getD ("")) year

/-- Lexicographic code-point comparison of strings (as character
lists), the order Python uses to sort dictionary keys. -/
def charListLE : List Char → List Char → Bool
  | [], _ => true
  | _ :: _, [] => false
  | a :: as, b :: bs =>
    if a.toNat = b.toNat then charListLE as bs
    else decide (a.toNat < b.toNat)

/-- Comparison of filter entries by field name, used to model
`json.dumps(filters, sort_keys=True)`. -/
def keyLE (a b : String × String) : Prop := charListLE a.1.data b.1.data = true

instance : DecidableRel keyLE :=
  fun a b => inferInstanceAs (Decidable (charListLE a.1.data b.1.data = true))

/-- Strict variant of `keyLE` used to show that sorting a duplicate-free
filter dictionary is order-insensitive. -/
def keyLT (a b : String × String) : Prop := keyLE a b ∧ a.1 ≠ b.1

/-- Model of `json.dumps(filters, sort_keys=True)`: serialize the filter
dictionary with its keys in sorted order (modelled for values without
escape characters, which covers every filter the server builds). -/
def jsonDumpsSorted (filters : List (String × String)) : String :=
  let sorted := filters.insertionSort keyLE
  "\x7b" ++ String.intercalate (", ") (sorted.map
    (fun p => "\"" ++ p.1 ++ "\": \"" ++ p.2 ++ "\"")) ++ "\x7d"

/-- Embedding of `HDBResaleServer._generate_cache_key`:
`f"{year}_{json.dumps(filters or {}, sort_keys=True)}"` (the empty
filter list plays the role of both `None` and `{}`). -/
def generate_cache_key (year : String) (filters : List (String × String)) : String :=
  year ++ "_" ++ jsonDumpsSorted filters

/-- The in-memory cache `self.cache`, an association list read through
`List.lookup` (a prepended entry shadows an older one, matching dict
assignment). -/
abbrev CacheT := List (String × List DataRecord)

/-- Outcome of one page request against the remote datastore, covering
exactly the cases the source distinguishes: a decoded page of records,
an HTTP status other than 200, an upstream response whose success flag
is false, an `asyncio.TimeoutError`, and any other raised exception. -/
inductive PageResult where
  | ok (records : List DataRecord)
  | httpError
  | apiError
  | timeout
  | exn
deriving DecidableEq, Repr

/-- The remote paginated endpoint, abstracted as a function from
(offset, limit, filters) to a page outcome.  The Python code omits the
`filters` query parameter when the dictionary is empty; the empty list
models that case. -/
abbrev Api := Nat → Nat → List (String × String) → PageResult

/-- Loop body of `HDBResaleServer._fetch_with_api_filters` (Tier A).
Arguments after the fixed ones: remaining loop iterations (fuel),
current offset, accumulated records, page requests issued so far.
Any non-ok page raises (`HTTP {status}` / `API error` are raised
explicitly, timeouts and other client errors propagate), which the
caller observes as `Except.error`.  Page size is 1000. -/
def fetch_with_api_filters_go (api : Api) (year : String)
    (filters : List (String × String)) (maxRecords : Nat) :
    Nat → Nat → List DataRecord → Nat → Except Unit (List DataRecord) × Nat
  | 0, _, acc, calls => (.ok acc, calls)
  | fuel + 1, offset, acc, calls =>
    if acc.length < maxRecords then
      match api offset 1000 filters with
      | .ok records =>
        if records = [] then (.ok acc, calls + 1)
        else
          let yearRecords := records.filter (matchesYear year)
          let acc' := acc ++ yearRecords
          if records.length < 1000 then (.ok acc', calls + 1)
          else fetch_with_api_filters_go api year filters maxRecords fuel
                 (offset + 1000) acc' (calls + 1)
      | _ => (.error (), calls + 1)
    else (.ok acc, calls)

/-- Embedding of `HDBResaleServer._fetch_with_api_filters`: Tier A, server-filtered
bulk fetch starting from offset 0 with an empty accumulator. -/
def fetch_with_api_filters (api : Api) (year : String)
    (filters : List (String × String)) (maxRecords : Nat) (fuel : Nat) :
    Except Unit (List DataRecord) × Nat :=
  fetch_with_api_filters_go api year filters maxRecords fuel 0 [] 0

/-- Loop body of `HDBResaleServer._fetch_chunked_with_year_filter`
(Tier B).  Arguments after the fixed ones: fuel, current offset,
consecutive-empty-chunk counter, accumulated records, page requests
issued so far.  Page size is 500 and `max_empty_chunks` is 5.  An HTTP
status other than 200, an upstream failure flag, and a timeout each
`break` out of the loop; any other raised exception increments the
empty counter and advances the offset. -/
def fetch_chunked_go (api : Api) (year : String)
    (filters : List (String × String)) (maxRecords : Nat) :
    Nat → Nat → Nat → List DataRecord → Nat → List DataRecord × Nat
  | 0, _, _, acc, calls => (acc, calls)
  | fuel + 1, offset, emptyChunks, acc, calls =>
    if acc.length < maxRecords ∧ emptyChunks < 5 then
      match api offset 500 filters with
      | .httpError => (acc, calls + 1)
      | .apiError => (acc, calls + 1)
      | .timeout => (acc, calls + 1)
      | .exn => fetch_chunked_go api year filters maxRecords fuel
                  (offset + 500) (emptyChunks + 1) acc (calls + 1)
      | .ok records =>
        if records = [] then
          fetch_chunked_go api year filters maxRecords fuel
            (offset + 500) (emptyChunks + 1) acc (calls + 1)
        else
          let yearRecords := records.filter (matchesYear year)
          let acc' := if yearRecords = [] then acc else acc ++ yearRecords
          let empty' := if yearRecords = [] then emptyChunks + 1 else 0
          if records.length < 500 then (acc', calls + 1)
          else fetch_chunked_go api year filters maxRecords fuel
                 (offset + 500) empty' acc' (calls + 1)
    else (acc, calls)

/-- Embedding of `HDBResaleServer._fetch_chunked_with_year_filter`: Tier B, chunked
client-filtered fetch starting from offset 0 with counters at zero. -/
def fetch_chunked_with_year_filter (api : Api) (year : String)
    (filters : List (String × String)) (maxRecords : Nat) (fuel : Nat) :
    List DataRecord × Nat :=
  fetch_chunked_go api year filters maxRecords fuel 0 0 [] 0

/-- Loop body of `HDBResaleServer._fetch_limited` (Tier C).  Arguments
after the fixed ones: remaining attempts (out of `max_attempts = 10`),
current attempt index, accumulated records, page requests issued so
far.  Offsets are `attempt * 1000`; every failure outcome `continue`s
to the next attempt; an empty page breaks; the tier stops early once
the current page matched and at least 100 records are accumulated. -/
def fetch_limited_go (api : Api) (year : String)
    (filters : List (String × String)) :
    Nat → Nat → List DataRecord → Nat → List DataRecord × Nat
  | 0, _, acc, calls => (acc, calls)
  | remaining + 1, attempt, acc, calls =>
    match api (attempt * 1000) 1000 filters with
    | .ok records =>
      if records = [] then (acc, calls + 1)
      else
        let yearRecords := records.filter (matchesYear year)
        let acc' := acc ++ yearRecords
        if yearRecords ≠ [] ∧ 100 ≤ acc'.length then (acc', calls + 1)
        else fetch_limited_go api year filters remaining (attempt + 1) acc' (calls + 1)
    | _ => fetch_limited_go api year filters remaining (attempt + 1) acc (calls + 1)

/-- Embedding of `HDBResaleServer._fetch_limited`: Tier C, limited best-effort
fetch: at most 10 fixed-offset attempts. -/
def fetch_limited (api : Api) (year : String)
    (filters : List (String × String)) : List DataRecord × Nat :=
  fetch_limited_go api year filters 10 0 [] 0

/-- Which execution path of `fetch_data_by_year_optimized` produced the
returned record set. -/
inductive FetchSource where
  | cacheHit
  | tierA
  | tierB
  | tierC
  | noData
deriving DecidableEq, Repr

/-- Strategies 2 and 3 of `fetch_data_by_year_optimized`: run Tier B,
commit its records when non-empty, otherwise run Tier C, commit its
records when non-empty, otherwise return the empty list with the cache
unchanged.  `calls` carries the page requests already issued by
Tier A. -/
def fetch_strategies_23 (api : Api) (fuel : Nat) (cache : CacheT)
    (key : String) (year : String) (filters : List (String × String))
    (maxRecords : Nat) (calls : Nat) :
    List DataRecord × CacheT × FetchSource × Nat :=
  match fetch_chunked_with_year_filter api year filters maxRecords fuel with
  | (rbRecords, rbCalls) =>
    if rbRecords ≠ [] then
      (rbRecords, (key, rbRecords) :: cache, .tierB, calls + rbCalls)
    else
      match fetch_limited api year filters with
      | (rcRecords, rcCalls) =>
        if rcRecords ≠ [] then
          (rcRecords, (key, rcRecords) :: cache, .tierC, calls + rbCalls + rcCalls)
        else ([], cache, .noData, calls + rbCalls + rcCalls)

/-- Embedding of `HDBResaleServer.fetch_data_by_year_optimized`: check the cache,
then try Strategy 1 (Tier A), committing its records to the cache when
it returns a non-empty list; a Tier A exception or an empty Tier A
result falls through to Strategies 2 and 3.  Returns the record set,
the updated cache, the path taken and the number of page requests
issued. -/
def fetch_data_by_year_optimized (api : Api) (fuel : Nat) (cache : CacheT)
    (year : String) (filters : List (String × String)) (maxRecords : Nat) :
    List DataRecord × CacheT × FetchSource × Nat :=
  match cache.lookup (generate_cache_key year filters) with
  | some records => (records, cache, .cacheHit, 0)
  | none =>
    match fetch_with_api_filters api year filters maxRecords fuel with
    | (.ok records, calls) =>
      if records ≠ [] then
        (records, (generate_cache_key year filters, records) :: cache, .tierA, calls)
      else
        fetch_strategies_23 api fuel cache (generate_cache_key year filters)
          year filters maxRecords calls
    | (.error _, calls) =>
      fetch_strategies_23 api fuel cache (generate_cache_key year filters)
        year filters maxRecords calls

/-! ## Aggregation: `get_highest_price` / `get_lowest_price` -/

/-- The key function `lambda x: float(x["resale_price"])`: `none` when
the field is missing (`KeyError`) or does not convert (`ValueError`). -/
def priceOf (r : DataRecord) : Option Int :=
  (r.lookup priceField).bind pyFloat

/-- Evaluate the key function on every record in iteration order, as
Python `max`/`min` do; the first missing or non-numeric price raises,
observed here as `none`. -/
def keyRecords : List DataRecord → Option (List (Int × DataRecord))
  | [] => some []
  | r :: rs =>
    match priceOf r with
    | none => none
    | some p => (keyRecords rs).map (fun ks => (p, r) :: ks)

/-- Python `max(records, key = ...)` on an already-keyed non-empty
list: keep the current best, replace it only on a strictly greater key,
so the first record attaining the maximum wins. -/
def pyMaxBy : Int × DataRecord → List (Int × DataRecord) → Int × DataRecord
  | best, [] => best
  | best, x :: xs => pyMaxBy (if best.1 < x.1 then x else best) xs

/-- Python `min(records, key = ...)`: first record attaining the
minimum wins. -/
def pyMinBy : Int × DataRecord → List (Int × DataRecord) → Int × DataRecord
  | best, [] => best
  | best, x :: xs => pyMinBy (if x.1 < best.1 then x else best) xs

/-- The aggregation step of `HDBResaleServer.get_highest_price` over an
already-retrieved record set: an empty set returns the
`No records found` error dict; `max(records, key=lambda x:
float(x["resale_price"]))` raising on any record returns the
`Failed to retrieve data` error dict; otherwise the maximal record and
its price are returned.  Error payloads are abbreviated to tags. -/
def get_highest_price_agg (records : List DataRecord) :
    Except String (Int × DataRecord) :=
  match records with
  | [] => .error ("no_records_found")
  | r :: rs =>
    match priceOf r, keyRecords rs with
    | some p, some ks => .ok (pyMaxBy (p, r) ks)
    | _, _ => .error ("failed_to_retrieve")

/-- The aggregation step of `HDBResaleServer.get_lowest_price`,
symmetric to `get_highest_price_agg`. -/
def get_lowest_price_agg (records : List DataRecord) :
    Except String (Int × DataRecord) :=
  match records with
  | [] => .error ("no_records_found")
  | r :: rs =>
    match priceOf r, keyRecords rs with
    | some p, some ks => .ok (pyMinBy (p, r) ks)
    | _, _ => .error ("failed_to_retrieve")

/-! ## Lease-remaining analysis: `get_flats_by_lease_remaining` -/

/-- The fields of one entry of `qualifying_flats` that the lease
analysis computes (the remaining descriptive fields are copied verbatim
from the record, kept here as the record itself). -/
structure FlatInfo where
  record : DataRecord
  leaseCommence : Int
  leaseRemaining : Int
deriving DecidableEq, Repr

/-- Per-record step of the `get_flats_by_lease_remaining` loop: `none`
when the record increments `error_count` (missing or falsy
`lease_commence_date`, failed numeric conversion, commencement year
outside `(0, current_year]`, or computed lease remaining outside
`[0, 99]`), otherwise the commencement year and the remaining lease
computed by `99 - (current_year - lease_commence_year)`. -/
def leaseInfoOf (currentYear : Int) (r : DataRecord) : Option (Int × Int) :=
  match r.lookup leaseField with
  | none => none
  | some raw =>
    if raw = "" then none
    else
      match pyFloat raw with
      | none => none
      | some commenceYear =>
        if commenceYear ≤ 0 ∨ currentYear < commenceYear then none
        else
          let remaining := 99 - (currentYear - commenceYear)
          if remaining < 0 ∨ 99 < remaining then none
          else some (commenceYear, remaining)

/-- Accumulating pass of the `get_flats_by_lease_remaining` loop:
returns the qualifying flats in record order together with
`error_count`. -/
def leaseScan (currentYear : Int) (minLease : Int) :
    List DataRecord → List FlatInfo × Nat
  | [] => ([], 0)
  | r :: rs =>
    let rest := leaseScan currentYear minLease rs
    match leaseInfoOf currentYear r with
    | none => (rest.1, rest.2 + 1)
    | some (commenceYear, remaining) =>
      if minLease ≤ remaining then
        (⟨r, commenceYear, remaining⟩ :: rest.1, rest.2)
      else rest

/-- Ordering used by `qualifying_flats.sort(key=..., reverse=True)`:
descending lease remaining. -/
def leaseGE (a b : FlatInfo) : Prop := b.leaseRemaining ≤ a.leaseRemaining

instance : DecidableRel leaseGE :=
  fun a b => inferInstanceAs (Decidable (b.leaseRemaining ≤ a.leaseRemaining))

/-- The record-set analysis of
`HDBResaleServer.get_flats_by_lease_remaining` (after fetching and
argument validation): scan the records, sort the qualifying flats by
lease remaining descending, return the first `limit` of them together
with `error_count`. -/
def get_flats_by_lease_remaining_core (currentYear : Int) (minLease : Int)
    (limit : Nat) (records : List DataRecord) : List FlatInfo × Nat :=
  let scanned := leaseScan currentYear minLease records
  ((scanned.1.insertionSort leaseGE).take limit, scanned.2)

/-- Modelled from the spec (for comparison with the code): the number
of records whose computed value `99 - (current_year - commence_year)`
falls outside `[0, 99]`, over records with a present, numeric
commencement field. -/
def outOfRangeCount (currentYear : Int) (records : List DataRecord) : Nat :=
  records.countP (fun r =>
    match (r.lookup leaseField).bind pyFloat with
    | some commenceYear =>
      decide (99 - (currentYear - commenceYear) < 0 ∨
              99 < 99 - (currentYear - commenceYear))
    | none => false)

/-! ## Server supervisor: `HDBResaleServer.run` -/

/-- How one invocation of `_run_server_loop` ends: normal return on
end of input, or an escaping exception. -/
inductive LoopOutcome where
  | normal
  | crash
deriving DecidableEq, Repr

/-- Trace of one `run()` execution: number of `_run_server_loop`
invocations, number of cleanup blocks executed (each closes the
session, clears the cache and sleeps 2 seconds), the final cache, and
whether the shutdown was the fatal max-restarts one. -/
structure SupTrace where
  runs : Nat
  cleanups : Nat
  cache : CacheT
  fatal : Bool
deriving DecidableEq, Repr

/-- The `while restart_count < max_restarts` loop of
`HDBResaleServer.run`, with `max_restarts = 5`.  `body i cache` is what
the `(i+1)`-th invocation of `_run_server_loop` does: the cache it
leaves behind and how it ends.  The fuel is `max_restarts -
restart_count`, which matches the loop condition exactly; on a crash
whose incremented counter is still below the maximum, the cleanup block
runs (session closed, `self.cache.clear()`, 2-second sleep) and the
loop re-enters, otherwise the loop breaks fatally without cleanup. -/
def supervisor_go (body : Nat → CacheT → CacheT × LoopOutcome) :
    Nat → Nat → CacheT → SupTrace
  | 0, _, cache => ⟨0, 0, cache, true⟩
  | fuel + 1, runIdx, cache =>
    let step := body runIdx cache
    match step.2 with
    | .normal => ⟨1, 0, step.1, false⟩
    | .crash =>
      if fuel = 0 then ⟨1, 0, step.1, true⟩
      else
        let rest := supervisor_go body fuel (runIdx + 1) []
        ⟨rest.runs + 1, rest.cleanups + 1, rest.cache, rest.fatal⟩

/-- Embedding of `HDBResaleServer.run`: start with `restart_count = 0` and
`max_restarts = 5`. -/
def run_supervisor (body : Nat → CacheT → CacheT × LoopOutcome)
    (cache : CacheT) : SupTrace :=
  supervisor_go body 5 0 cache

/-! ## Message dispatch: `handle_message` and response emission -/

/-- An inbound JSON-RPC message: its method and optional identifier.
(The params only influence response payloads, which are abstracted
away; the identifier routing is modelled exactly.) -/
structure JMessage where
  method : String
  id : Option Int
deriving DecidableEq, Repr

/-- A response produced by `handle_message`: a result payload or an
error payload, each carrying the `"id"` field it is emitted with. -/
inductive JResponse where
  | result (id : Option Int)
  | error (id : Int)
deriving DecidableEq, Repr

/-- The `"id"` field of a response. -/
def JResponse.rid : JResponse → Option Int
  | .result i => i
  | .error i => some i

/-- Embedding of `HDBResaleServer.handle_message`, with response payloads abstracted
to their kind: `initialize`, `tools/list` and `tools/call` build a
result response carrying the message id (`tools/call` catches every
tool error, including unknown tool names, and wraps it in a result
payload); `notifications/initialized` returns `None`; any other method
raises `ValueError`, which the outer handler converts to an error
response when the message id is not `None` and to `None` otherwise. -/
def handle_message (m : JMessage) : Option JResponse :=
  if m.method = "initialize" then some (.result m.id)
  else if m.method = "notifications/initialized" then none
  else if m.method = "tools/list" then some (.result m.id)
  else if m.method = "tools/call" then some (.result m.id)
  else
    match m.id with
    | some i => some (.error i)
    | none => none

/-- The loop `_run_server_loop` emits a response line exactly when
`handle_message` returned one (`if response:` — a response dict is
always non-empty, hence truthy). -/
def emitsResponse (m : JMessage) : Bool :=
  (handle_message m).isSome

/-! ## Concrete fixtures for witnesses and counterexamples -/

/-- A record of the partition "2024" with a numeric price. -/
def recA : DataRecord := [(monthField, "2024-01"), (priceField, "500000")]

/-- A second record of the partition "2024". -/
def recB : DataRecord := [(monthField, "2024-02"), (priceField, "410000")]

/-- A record of a different partition (month "1999-01"). -/
def recOld : DataRecord := [(monthField, "1999-01"), (priceField, "300000")]

/-- An upstream with a single short page holding one matching record. -/
def apiOne : Api := fun off _ _ => if off = 0 then .ok [recA] else .ok []

/-- An upstream with a single short page holding two matching records. -/
def apiTwo : Api := fun off _ _ => if off = 0 then .ok [recA, recB] else .ok []

/-- An upstream holding 10000 partition-matching records served in full
pages of the requested size (capped at 500). -/
def apiPages : Api := fun off lim _ =>
  if off < 10000 then .ok (List.replicate (min 500 lim) recA) else .ok []

/-- An upstream whose page at offset 500 fails with an HTTP error while
later offsets still hold matching data: offset 0 is empty, offset 500
returns HTTP 500, offset 1000 onwards holds a matching record. -/
def apiAbort : Api := fun off _ _ =>
  if off = 0 then .ok []
  else if off = 500 then .httpError
  else .ok [recA]

/-- An upstream serving unboundedly many full pages, none of which
matches partition "2024". -/
def apiNoMatch : Api := fun _ lim _ =>
  .ok (List.replicate (min 500 lim) recOld)

/-- An upstream that fails every request at the HTTP level. -/
def apiDown : Api := fun _ _ _ => .httpError

/-- A cache holding the unfiltered "2024" query with a single record. -/
def cacheOne : CacheT := [(generate_cache_key ("2024") [], [recA])]

/-- A dispatch-loop body that repopulates the cache and then crashes on
every invocation. -/
def bodyGrow : Nat → CacheT → CacheT × LoopOutcome :=
  fun _ c => ((generate_cache_key ("2024") [], [recA]) :: c, .crash)

/-- A dispatch-loop body that ends normally at once, leaving the cache
as it found it. -/
def bodyCalm : Nat → CacheT → CacheT × LoopOutcome :=
  fun _ c => (c, .normal)

/-- A concrete filter dictionary, town first. -/
def fW1 : List (String × String) := [("town", "ANG MO KIO"), ("flat_type", "4 ROOM")]

/-- The same filter dictionary with the opposite insertion order. -/
def fW2 : List (String × String) := [("flat_type", "4 ROOM"), ("town", "ANG MO KIO")]

/-! ## Properties of the key ordering -/

theorem charListLE_total : ∀ as bs : List Char,
    charListLE as bs = true ∨ charListLE bs as = true
  | [], _ => by left; rfl
  | _ :: _, [] => by right; rfl
  | a :: as, b :: bs => by
    rcases Nat.lt_trichotomy a.toNat b.toNat with h | h | h
    · left; simp [charListLE, Nat.ne_of_lt h, h]
    · rcases charListLE_total as bs with ih | ih
      · left; simp [charListLE, h, ih]
      · right; simp [charListLE, h.symm, ih]
    · right; simp [charListLE, Nat.ne_of_lt h, h]

theorem charListLE_trans : ∀ as bs cs : List Char,
    charListLE as bs = true → charListLE bs cs = true → charListLE as cs = true
  | [], _, _, _, _ => rfl
  | _ :: _, [], _, h, _ => by simp [charListLE] at h
  | _ :: _, _ :: _, [], _, h' => by simp [charListLE] at h'
  | a :: as, b :: bs, c :: cs, h, h' => by
    simp only [charListLE] at h h' ⊢
    by_cases hab : a.toNat = b.toNat <;> by_cases hbc : b.toNat = c.toNat
    · rw [if_pos hab] at h
      rw [if_pos hbc] at h'
      rw [if_pos (hab.trans hbc)]
      exact charListLE_trans as bs cs h h'
    · rw [if_pos hab] at h
      rw [if_neg hbc] at h'
      have hlt : b.toNat < c.toNat := of_decide_eq_true h'
      have hac : a.toNat ≠ c.toNat := by omega
      rw [if_neg hac]
      exact decide_eq_true (by omega)
    · rw [if_neg hab] at h
      have hlt : a.toNat < b.toNat := of_decide_eq_true h
      have hac : a.toNat ≠ c.toNat := by omega
      rw [if_neg hac]
      exact decide_eq_true (by omega)
    · rw [if_neg hab] at h
      rw [if_neg hbc] at h'
      have h1 : a.toNat < b.toNat := of_decide_eq_true h
      have h2 : b.toNat < c.toNat := of_decide_eq_true h'
      have hac : a.toNat ≠ c.toNat := by omega
      rw [if_neg hac]
      exact decide_eq_true (by omega)

theorem charListLE_antisymm : ∀ as bs : List Char,
    charListLE as bs = true → charListLE bs as = true → as = bs
  | [], [], _, _ => rfl
  | [], _ :: _, _, h' => by simp [charListLE] at h'
  | _ :: _, [], h, _ => by simp [charListLE] at h
  | a :: as, b :: bs, h, h' => by
    simp only [charListLE] at h h'
    by_cases hab : a.toNat = b.toNat
    · have ha : a = b := Char.eq_of_val_eq (UInt32.ext hab)
      simp only [hab, if_pos rfl] at h
      simp only [hab.symm, if_pos rfl] at h'
      rw [ha, charListLE_antisymm as bs h h']
    · have hba : b.toNat ≠ a.toNat := fun hba => hab hba.symm
      rw [if_neg hab] at h
      rw [if_neg hba] at h'
      have h1 : a.toNat < b.toNat := of_decide_eq_true h
      have h2 : b.toNat < a.toNat := of_decide_eq_true h'
      omega

theorem string_eq_of_data_eq {s t : String} (h : s.data = t.data) : s = t := by
  cases s; cases t; exact congrArg String.mk h

/-! ## Claim C9 — response presence and identifier correlation -/

/-- C9, counterexample: the claim says every inbound request carrying
no identifier produces no response; but an id-less `tools/list` request
produces a response (with a null id), which `_run_server_loop` then
emits because a response dict is truthy. -/
theorem C9_counterexample :
    handle_message ⟨"tools/list", none⟩ = some (.result none) ∧
    emitsResponse ⟨"tools/list", none⟩ = true := by
  constructor <;> decide

/-- C9, amended: every response produced by `handle_message` carries
the request's identifier, and no response is produced exactly for
`notifications/initialized` requests and for unrecognized-method
requests without an identifier; in particular every request with an
identifier receives exactly one response correlated by it, but id-less
requests for the recognized methods `initialize`, `tools/list` and
`tools/call` do receive a (null-id) response. -/
theorem C9_amended (m : JMessage) :
    (∀ r, handle_message m = some r → r.rid = m.id) ∧
    (handle_message m = none ↔
      (m.method = "notifications/initialized" ∨
        (m.id = none ∧ m.method ≠ "initialize" ∧ m.method ≠ "tools/list" ∧
         m.method ≠ "tools/call"))) := by
  unfold handle_message
  split_ifs with h1 h2 h3 h4
  · constructor
    · rintro r hr
      cases hr
      rfl
    · simp [h1]
  · constructor
    · rintro r hr
      cases hr
    · simp [h2]
  · constructor
    · rintro r hr
      cases hr
      rfl
    · simp [h1, h2, h3]
  · constructor
    · rintro r hr
      cases hr
      rfl
    · simp [h1, h2, h3, h4]
  · cases hid : m.id with
    | some i =>
      constructor
      · rintro r hr
        cases hr
        simp [JResponse.rid, hid]
      · simp [h1, h2, h3, h4, hid]
    | none =>
      constructor
      · rintro r hr
        cases hr
      · simp [h1, h2, h3, h4]

/-- Witness for C9: the amended theorem applied to a concrete
`tools/call` request with identifier 7. -/
theorem C9_witness :
    handle_message ⟨"tools/call", some 7⟩ = some (.result (some 7)) ∧
    (JResponse.result (some 7)).rid = some 7 := by
  refine ⟨by decide, ?_⟩
  exact (C9_amended ⟨"tools/call", some 7⟩).1 (.result (some 7)) (by decide)

/-! ## Claim C8 — supervisor restart behaviour -/

theorem supervisor_go_succ (body : Nat → CacheT → CacheT × LoopOutcome)
    (fuel runIdx : Nat) (cache : CacheT) :
    supervisor_go body (fuel + 1) runIdx cache =
      match (body runIdx cache).2 with
      | .normal => ⟨1, 0, (body runIdx cache).1, false⟩
      | .crash =>
        if fuel = 0 then ⟨1, 0, (body runIdx cache).1, true⟩
        else
          let rest := supervisor_go body fuel (runIdx + 1) []
          ⟨rest.runs + 1, rest.cleanups + 1, rest.cache, rest.fatal⟩ := rfl

theorem supervisor_go_all_crash (body : Nat → CacheT → CacheT × LoopOutcome)
    (h : ∀ i c, (body i c).2 = .crash) :
    ∀ fuel runIdx cache, supervisor_go body (fuel + 1) runIdx cache =
      ⟨fuel + 1, fuel, (body (runIdx + fuel) (if fuel = 0 then cache else [])).1, true⟩ := by
  intro fuel
  induction fuel with
  | zero =>
    intro runIdx cache
    rw [supervisor_go_succ, h runIdx cache]
    simp
  | succ n ih =>
    intro runIdx cache
    rw [supervisor_go_succ, h runIdx cache]
    simp only [Nat.succ_ne_zero, if_false, ite_self]
    rw [ih (runIdx + 1) []]
    simp only [ite_self]
    have harith : runIdx + 1 + n = runIdx + (n + 1) := by omega
    rw [harith]

/-- C8, counterexample: the claim says every abnormal termination of
the dispatch loop performs cleanup (including clearing the entire
cache) and restarts, up to a maximum of 5 restarts.  With a body that
repopulates the cache and crashes on every invocation, the code runs
the loop only 5 times (4 restarts, not 5), and on the 5th crash it
shuts down fatally without the cleanup block, leaving the cache
populated instead of clearing it. -/
theorem C8_counterexample :
    run_supervisor bodyGrow [] =
      ⟨5, 4, [(generate_cache_key ("2024") [], [recA])], true⟩ := by
  decide

/-- C8, amended: on normal end-of-input the supervisor shuts down
after a single loop run with no restart; on a crash it increments the
restart counter, runs the cleanup block (closing the session, clearing
the cache — the continuation starts from the empty cache — and
sleeping 2 seconds) and restarts, but only while the incremented
counter is below 5: an always-crashing body yields exactly 5 loop runs
and 4 cleanup/restart cycles, after which the supervisor shuts down
fatally, without cleanup after the final crash. -/
theorem C8_amended (body : Nat → CacheT → CacheT × LoopOutcome) (cache : CacheT) :
    ((body 0 cache).2 = .normal →
      run_supervisor body cache = ⟨1, 0, (body 0 cache).1, false⟩) ∧
    ((body 0 cache).2 = .crash →
      run_supervisor body cache =
        ⟨(supervisor_go body 4 1 []).runs + 1,
         (supervisor_go body 4 1 []).cleanups + 1,
         (supervisor_go body 4 1 []).cache,
         (supervisor_go body 4 1 []).fatal⟩) ∧
    ((∀ i c, (body i c).2 = .crash) →
      run_supervisor body cache = ⟨5, 4, (body 4 []).1, true⟩) := by
  refine ⟨?_, ?_, ?_⟩
  · intro h
    unfold run_supervisor
    rw [show (5 : Nat) = 4 + 1 from rfl, supervisor_go_succ, h]
  · intro h
    unfold run_supervisor
    rw [show (5 : Nat) = 4 + 1 from rfl, supervisor_go_succ, h]
    rfl
  · intro h
    unfold run_supervisor
    rw [show (5 : Nat) = 4 + 1 from rfl, supervisor_go_all_crash body h 4 0 cache]
    simp

/-- Witness for C8: the amended theorem applied to the concrete
always-crashing body `bodyGrow` and to the concrete normally-ending
body `bodyCalm`. -/
theorem C8_witness :
    run_supervisor bodyCalm cacheOne = ⟨1, 0, cacheOne, false⟩ ∧
    run_supervisor bodyGrow cacheOne = ⟨5, 4, (bodyGrow 4 []).1, true⟩ := by
  constructor
  · exact (C8_amended bodyCalm cacheOne).1 rfl
  · exact (C8_amended bodyGrow cacheOne).2.2 (fun _ _ => rfl)

/-! ## Structure of `fetch_data_by_year_optimized` -/

theorem fetch_hit (api : Api) (fuel : Nat) (cache : CacheT) (year : String)
    (filters : List (String × String)) (maxRecords : Nat)
    (records : List DataRecord)
    (h : cache.lookup (generate_cache_key year filters) = some records) :
    fetch_data_by_year_optimized api fuel cache year filters maxRecords =
      (records, cache, .cacheHit, 0) := by
  unfold fetch_data_by_year_optimized
  rw [h]

theorem strat23_tierB (api : Api) (fuel : Nat) (cache : CacheT) (key year : String)
    (filters : List (String × String)) (maxRecords calls : Nat)
    (hb : (fetch_chunked_with_year_filter api year filters maxRecords fuel).1 ≠ []) :
    fetch_strategies_23 api fuel cache key year filters maxRecords calls =
      ((fetch_chunked_with_year_filter api year filters maxRecords fuel).1,
       (key, (fetch_chunked_with_year_filter api year filters maxRecords fuel).1) :: cache,
       .tierB,
       calls + (fetch_chunked_with_year_filter api year filters maxRecords fuel).2) := by
  unfold fetch_strategies_23
  simp [hb]

theorem strat23_tierC (api : Api) (fuel : Nat) (cache : CacheT) (key year : String)
    (filters : List (String × String)) (maxRecords calls : Nat)
    (hb : (fetch_chunked_with_year_filter api year filters maxRecords fuel).1 = [])
    (hc : (fetch_limited api year filters).1 ≠ []) :
    fetch_strategies_23 api fuel cache key year filters maxRecords calls =
      ((fetch_limited api year filters).1,
       (key, (fetch_limited api year filters).1) :: cache,
       .tierC,
       calls + (fetch_chunked_with_year_filter api year filters maxRecords fuel).2 +
         (fetch_limited api year filters).2) := by
  unfold fetch_strategies_23
  simp [hb, hc]

theorem strat23_noData (api : Api) (fuel : Nat) (cache : CacheT) (key year : String)
    (filters : List (String × String)) (maxRecords calls : Nat)
    (hb : (fetch_chunked_with_year_filter api year filters maxRecords fuel).1 = [])
    (hc : (fetch_limited api year filters).1 = []) :
    fetch_strategies_23 api fuel cache key year filters maxRecords calls =
      ([], cache, .noData,
       calls + (fetch_chunked_with_year_filter api year filters maxRecords fuel).2 +
         (fetch_limited api year filters).2) := by
  unfold fetch_strategies_23
  simp [hb, hc]

theorem fetch_data_cases (api : Api) (fuel : Nat) (cache : CacheT) (year : String)
    (filters : List (String × String)) (maxRecords : Nat) :
    (∃ records, cache.lookup (generate_cache_key year filters) = some records ∧
      fetch_data_by_year_optimized api fuel cache year filters maxRecords =
        (records, cache, .cacheHit, 0)) ∨
    (∃ records calls, records ≠ [] ∧
      fetch_data_by_year_optimized api fuel cache year filters maxRecords =
        (records, (generate_cache_key year filters, records) :: cache, .tierA, calls)) ∨
    (∃ records calls, records ≠ [] ∧
      fetch_data_by_year_optimized api fuel cache year filters maxRecords =
        (records, (generate_cache_key year filters, records) :: cache, .tierB, calls)) ∨
    (∃ records calls, records ≠ [] ∧
      fetch_data_by_year_optimized api fuel cache year filters maxRecords =
        (records, (generate_cache_key year filters, records) :: cache, .tierC, calls)) ∨
    (∃ calls,
      fetch_data_by_year_optimized api fuel cache year filters maxRecords =
        ([], cache, .noData, calls)) := by
  have hstrat : ∀ calls,
      (∃ records calls', records ≠ [] ∧
        fetch_strategies_23 api fuel cache (generate_cache_key year filters)
          year filters maxRecords calls =
          (records, (generate_cache_key year filters, records) :: cache, .tierB, calls')) ∨
      (∃ records calls', records ≠ [] ∧
        fetch_strategies_23 api fuel cache (generate_cache_key year filters)
          year filters maxRecords calls =
          (records, (generate_cache_key year filters, records) :: cache, .tierC, calls')) ∨
      (∃ calls',
        fetch_strategies_23 api fuel cache (generate_cache_key year filters)
          year filters maxRecords calls = ([], cache, .noData, calls')) := by
    intro calls
    by_cases hb : (fetch_chunked_with_year_filter api year filters maxRecords fuel).1 = []
    · by_cases hc : (fetch_limited api year filters).1 = []
      · exact Or.inr (Or.inr ⟨_, strat23_noData api fuel cache _ year filters
          maxRecords calls hb hc⟩)
      · exact Or.inr (Or.inl ⟨_, _, hc, strat23_tierC api fuel cache _ year filters
          maxRecords calls hb hc⟩)
    · exact Or.inl ⟨_, _, hb, strat23_tierB api fuel cache _ year filters
        maxRecords calls hb⟩
  unfold fetch_data_by_year_optimized
  cases hl : cache.lookup (generate_cache_key year filters) with
  | some records => exact Or.inl ⟨records, rfl, rfl⟩
  | none =>
    cases hra : fetch_with_api_filters api year filters maxRecords fuel with
    | mk ra calls =>
      cases ra with
      | ok records =>
        by_cases hne : records = []
        · subst hne
          simp only [ne_eq, not_true_eq_false, if_false]
          rcases hstrat calls with h | h | h
          · exact Or.inr (Or.inr (Or.inl h))
          · exact Or.inr (Or.inr (Or.inr (Or.inl h)))
          · exact Or.inr (Or.inr (Or.inr (Or.inr h)))
        · refine Or.inr (Or.inl ⟨records, calls, hne, ?_⟩)
          simp [hne]
      | error e =>
        rcases hstrat calls with h | h | h
        · exact Or.inr (Or.inr (Or.inl h))
        · exact Or.inr (Or.inr (Or.inr (Or.inl h)))
        · exact Or.inr (Or.inr (Or.inr (Or.inr h)))

theorem fetch_commits (api : Api) (fuel : Nat) (cache : CacheT) (year : String)
    (filters : List (String × String)) (maxRecords : Nat)
    (hne : (fetch_data_by_year_optimized api fuel cache year filters maxRecords).1 ≠ []) :
    ((fetch_data_by_year_optimized api fuel cache year filters maxRecords).2.1).lookup
        (generate_cache_key year filters) =
      some (fetch_data_by_year_optimized api fuel cache year filters maxRecords).1 := by
  rcases fetch_data_cases api fuel cache year filters maxRecords with
    ⟨records, hl, heq⟩ | ⟨records, calls, _, heq⟩ | ⟨records, calls, _, heq⟩ |
    ⟨records, calls, _, heq⟩ | ⟨calls, heq⟩
  · rw [heq]
    exact hl
  · rw [heq]
    simp [List.lookup]
  · rw [heq]
    simp [List.lookup]
  · rw [heq]
    simp [List.lookup]
  · rw [heq] at hne
    simp at hne

/-! ## Claim C4 — cache lookup ignores the record budget -/

/-- C4, amended: the claim says a request whose budget exceeds the
cached entry's size is treated as a cache miss; in the code the cache
key ignores the budget entirely and a lookup hit is served for every
budget, larger or smaller, with zero page requests. -/
theorem C4_amended (api : Api) (fuel : Nat) (cache : CacheT) (year : String)
    (filters : List (String × String)) (records : List DataRecord)
    (h : cache.lookup (generate_cache_key year filters) = some records) :
    ∀ maxRecords : Nat,
      fetch_data_by_year_optimized api fuel cache year filters maxRecords =
        (records, cache, .cacheHit, 0) :=
  fun maxRecords => fetch_hit api fuel cache year filters maxRecords records h

/-- C4, counterexample: the cache holds a single-record entry for the
unfiltered "2024" query; a request for the same query with budget 2
(larger than the cached size 1) is nevertheless served the cached
single record with zero page requests, against an upstream that would
have returned two records. -/
theorem C4_counterexample :
    fetch_data_by_year_optimized apiTwo 3 cacheOne ("2024") [] 2 =
      ([recA], cacheOne, .cacheHit, 0) := by
  decide

/-- Witness for C4: the amended theorem applied to the concrete
one-entry cache with a budget of 50000. -/
theorem C4_witness :
    fetch_data_by_year_optimized apiTwo 3 cacheOne ("2024") [] 50000 =
      ([recA], cacheOne, .cacheHit, 0) :=
  C4_amended apiTwo 3 cacheOne ("2024") [] [recA] (by decide) 50000

/-! ## Claim C10 — the cache maps keys only to non-empty record lists -/

/-- C10: a retrieval that yields zero records leaves the cache
unchanged; the cache is extended only with the non-empty record set a
tier returned; consequently, if every cached value is non-empty before
a retrieval, every cached value is non-empty after it. -/
theorem C10_cache_nonempty (api : Api) (fuel : Nat) (cache : CacheT) (year : String)
    (filters : List (String × String)) (maxRecords : Nat) :
    ((fetch_data_by_year_optimized api fuel cache year filters maxRecords).1 = [] →
      (fetch_data_by_year_optimized api fuel cache year filters maxRecords).2.1 = cache) ∧
    ((fetch_data_by_year_optimized api fuel cache year filters maxRecords).2.1 = cache ∨
      ((fetch_data_by_year_optimized api fuel cache year filters maxRecords).1 ≠ [] ∧
       (fetch_data_by_year_optimized api fuel cache year filters maxRecords).2.1 =
         (generate_cache_key year filters,
          (fetch_data_by_year_optimized api fuel cache year filters maxRecords).1) :: cache)) ∧
    ((∀ k v, cache.lookup k = some v → v ≠ []) →
      ∀ k v, ((fetch_data_by_year_optimized api fuel cache year filters
          maxRecords).2.1).lookup k = some v → v ≠ []) := by
  rcases fetch_data_cases api fuel cache year filters maxRecords with
    ⟨records, hl, heq⟩ | ⟨records, calls, hne, heq⟩ | ⟨records, calls, hne, heq⟩ |
    ⟨records, calls, hne, heq⟩ | ⟨calls, heq⟩
  · refine ⟨fun _ => by rw [heq], Or.inl (by rw [heq]), fun hinv k v hkv => ?_⟩
    rw [heq] at hkv
    exact hinv k v hkv
  · refine ⟨fun hnil => absurd ?_ hne, Or.inr ⟨?_, ?_⟩, fun hinv k v hkv => ?_⟩
    · rw [heq] at hnil
      exact hnil
    · rw [heq]
      exact hne
    · rw [heq]
    · rw [heq] at hkv
      simp only [List.lookup] at hkv
      by_cases hk : (k == generate_cache_key year filters) = true
      · rw [hk] at hkv
        cases hkv
        exact hne
      · have hk' : (k == generate_cache_key year filters) = false := by
          simpa using hk
        rw [hk'] at hkv
        exact hinv k v hkv
  · refine ⟨fun hnil => absurd ?_ hne, Or.inr ⟨?_, ?_⟩, fun hinv k v hkv => ?_⟩
    · rw [heq] at hnil
      exact hnil
    · rw [heq]
      exact hne
    · rw [heq]
    · rw [heq] at hkv
      simp only [List.lookup] at hkv
      by_cases hk : (k == generate_cache_key year filters) = true
      · rw [hk] at hkv
        cases hkv
        exact hne
      · have hk' : (k == generate_cache_key year filters) = false := by
          simpa using hk
        rw [hk'] at hkv
        exact hinv k v hkv
  · refine ⟨fun hnil => absurd ?_ hne, Or.inr ⟨?_, ?_⟩, fun hinv k v hkv => ?_⟩
    · rw [heq] at hnil
      exact hnil
    · rw [heq]
      exact hne
    · rw [heq]
    · rw [heq] at hkv
      simp only [List.lookup] at hkv
      by_cases hk : (k == generate_cache_key year filters) = true
      · rw [hk] at hkv
        cases hkv
        exact hne
      · have hk' : (k == generate_cache_key year filters) = false := by
          simpa using hk
        rw [hk'] at hkv
        exact hinv k v hkv
  · refine ⟨fun _ => by rw [heq], Or.inl (by rw [heq]), fun hinv k v hkv => ?_⟩
    rw [heq] at hkv
    exact hinv k v hkv

/-- Witness for C10: a retrieval against a fully failing upstream with
a populated cache and a query not in the cache leaves the cache
unchanged. -/
theorem C10_witness :
    (fetch_data_by_year_optimized apiDown 3 cacheOne ("2025") [] 50).2.1 = cacheOne :=
  (C10_cache_nonempty apiDown 3 cacheOne ("2025") [] 50).1 (by decide)

/-! ## Claim C1 — strict tier order, first non-empty tier wins -/

/-- C1: on a cache miss the tiers are tried strictly in the order
A, B, C.  A non-empty Tier A result is committed with only Tier A's
page requests counted (Tiers B and C are never invoked); a Tier A
exception and an empty Tier A result advance identically to the same
Tier B/C continuation; within that continuation a non-empty Tier B
result is committed without invoking Tier C, an empty Tier B result
falls to Tier C, and when all tiers produce nothing the retrieval
returns the empty record set. -/
theorem C1_tier_order (api : Api) (fuel : Nat) (cache : CacheT) (year : String)
    (filters : List (String × String)) (maxRecords : Nat)
    (hmiss : cache.lookup (generate_cache_key year filters) = none) :
    (∀ records calls,
      fetch_with_api_filters api year filters maxRecords fuel = (.ok records, calls) →
      records ≠ [] →
      fetch_data_by_year_optimized api fuel cache year filters maxRecords =
        (records, (generate_cache_key year filters, records) :: cache, .tierA, calls)) ∧
    (∀ calls,
      (fetch_with_api_filters api year filters maxRecords fuel = (.ok [], calls) ∨
       fetch_with_api_filters api year filters maxRecords fuel = (.error (), calls)) →
      fetch_data_by_year_optimized api fuel cache year filters maxRecords =
        fetch_strategies_23 api fuel cache (generate_cache_key year filters)
          year filters maxRecords calls) ∧
    (∀ calls,
      (fetch_chunked_with_year_filter api year filters maxRecords fuel).1 ≠ [] →
      fetch_strategies_23 api fuel cache (generate_cache_key year filters)
          year filters maxRecords calls =
        ((fetch_chunked_with_year_filter api year filters maxRecords fuel).1,
         (generate_cache_key year filters,
          (fetch_chunked_with_year_filter api year filters maxRecords fuel).1) :: cache,
         .tierB,
         calls + (fetch_chunked_with_year_filter api year filters maxRecords fuel).2)) ∧
    (∀ calls,
      (fetch_chunked_with_year_filter api year filters maxRecords fuel).1 = [] →
      (fetch_limited api year filters).1 ≠ [] →
      fetch_strategies_23 api fuel cache (generate_cache_key year filters)
          year filters maxRecords calls =
        ((fetch_limited api year filters).1,
         (generate_cache_key year filters, (fetch_limited api year filters).1) :: cache,
         .tierC,
         calls + (fetch_chunked_with_year_filter api year filters maxRecords fuel).2 +
           (fetch_limited api year filters).2)) ∧
    (∀ calls,
      (fetch_chunked_with_year_filter api year filters maxRecords fuel).1 = [] →
      (fetch_limited api year filters).1 = [] →
      fetch_strategies_23 api fuel cache (generate_cache_key year filters)
          year filters maxRecords calls =
        ([], cache, .noData,
         calls + (fetch_chunked_with_year_filter api year filters maxRecords fuel).2 +
           (fetch_limited api year filters).2)) := by
  refine ⟨?_, ?_, ?_, ?_, ?_⟩
  · intro records calls ha hne
    unfold fetch_data_by_year_optimized
    rw [hmiss, ha]
    simp [hne]
  · intro calls ha
    rcases ha with ha | ha
    · unfold fetch_data_by_year_optimized
      rw [hmiss, ha]
      simp
    · unfold fetch_data_by_year_optimized
      rw [hmiss, ha]
  · intro calls hb
    exact strat23_tierB api fuel cache _ year filters maxRecords calls hb
  · intro calls hb hc
    exact strat23_tierC api fuel cache _ year filters maxRecords calls hb hc
  · intro calls hb hc
    exact strat23_noData api fuel cache _ year filters maxRecords calls hb hc

/-- Witness for C1: against an upstream whose first page holds one
matching record, Tier A succeeds after one page request and its result
is committed; the overall request issues exactly 1 page request, so
Tiers B and C were not invoked. -/
theorem C1_witness :
    fetch_data_by_year_optimized apiOne 3 [] ("2024") [] 50 =
      ([recA], [(generate_cache_key ("2024") [], [recA])], .tierA, 1) :=
  (C1_tier_order apiOne 3 [] ("2024") [] 50 (by decide)).1 [recA] 1 (by rfl) (by decide)

/-! ## Claim C3 — extremum-by-field aggregation -/

theorem pyMaxBy_mem : ∀ (best : Int × DataRecord) (xs : List (Int × DataRecord)),
    pyMaxBy best xs ∈ best :: xs
  | _, [] => List.mem_singleton_self _
  | best, x :: xs => by
    have ih := pyMaxBy_mem (if best.1 < x.1 then x else best) xs
    rcases List.mem_cons.mp ih with h | h
    · rw [pyMaxBy, h]
      by_cases hlt : best.1 < x.1
      · simp [hlt]
      · simp [hlt]
    · exact List.mem_cons_of_mem _ (List.mem_cons_of_mem _ h)

theorem pyMaxBy_le : ∀ (best : Int × DataRecord) (xs : List (Int × DataRecord))
    (y : Int × DataRecord), y ∈ best :: xs → y.1 ≤ (pyMaxBy best xs).1
  | best, [], y, hy => by
    rcases List.mem_cons.mp hy with h | h
    · rw [pyMaxBy, h]
    · cases h
  | best, x :: xs, y, hy => by
    rw [pyMaxBy]
    have hbest : best.1 ≤ (if best.1 < x.1 then x else best).1 := by
      by_cases hlt : best.1 < x.1
      · simp [hlt]
        omega
      · simp [hlt]
    have hx : x.1 ≤ (if best.1 < x.1 then x else best).1 := by
      by_cases hlt : best.1 < x.1
      · simp [hlt]
      · simp [hlt]
        omega
    rcases List.mem_cons.mp hy with h | h
    · calc y.1 = best.1 := by rw [h]
        _ ≤ _ := le_trans hbest
          (pyMaxBy_le _ xs _ (List.mem_cons_self _ _))
    · rcases List.mem_cons.mp h with h' | h'
      · calc y.1 = x.1 := by rw [h']
          _ ≤ _ := le_trans hx
            (pyMaxBy_le _ xs _ (List.mem_cons_self _ _))
      · exact pyMaxBy_le _ xs _ (List.mem_cons_of_mem _ h')

theorem pyMinBy_mem : ∀ (best : Int × DataRecord) (xs : List (Int × DataRecord)),
    pyMinBy best xs ∈ best :: xs
  | _, [] => List.mem_singleton_self _
  | best, x :: xs => by
    have ih := pyMinBy_mem (if x.1 < best.1 then x else best) xs
    rcases List.mem_cons.mp ih with h | h
    · rw [pyMinBy, h]
      by_cases hlt : x.1 < best.1
      · simp [hlt]
      · simp [hlt]
    · exact List.mem_cons_of_mem _ (List.mem_cons_of_mem _ h)

theorem pyMinBy_ge : ∀ (best : Int × DataRecord) (xs : List (Int × DataRecord))
    (y : Int × DataRecord), y ∈ best :: xs → (pyMinBy best xs).1 ≤ y.1
  | best, [], y, hy => by
    rcases List.mem_cons.mp hy with h | h
    · rw [pyMinBy, h]
    · cases h
  | best, x :: xs, y, hy => by
    rw [pyMinBy]
    have hbest : (if x.1 < best.1 then x else best).1 ≤ best.1 := by
      by_cases hlt : x.1 < best.1
      · simp [hlt]
        omega
      · simp [hlt]
    have hx : (if x.1 < best.1 then x else best).1 ≤ x.1 := by
      by_cases hlt : x.1 < best.1
      · simp [hlt]
      · simp [hlt]
        omega
    rcases List.mem_cons.mp hy with h | h
    · calc (pyMinBy _ xs).1 ≤ _ :=
          pyMinBy_ge _ xs _ (List.mem_cons_self _ _)
        _ ≤ best.1 := hbest
        _ = y.1 := by rw [h]
    · rcases List.mem_cons.mp h with h' | h'
      · calc (pyMinBy _ xs).1 ≤ _ :=
            pyMinBy_ge _ xs _ (List.mem_cons_self _ _)
          _ ≤ x.1 := hx
          _ = y.1 := by rw [h']
      · exact pyMinBy_ge _ xs _ (List.mem_cons_of_mem _ h')

theorem keyRecords_map_snd : ∀ (rs : List DataRecord) (ks : List (Int × DataRecord)),
    keyRecords rs = some ks → ks.map Prod.snd = rs ∧ ∀ x ∈ ks, priceOf x.2 = some x.1
  | [], ks, h => by
    cases h
    exact ⟨rfl, by intro x hx; cases hx⟩
  | r :: rs, ks, h => by
    rw [keyRecords] at h
    cases hp : priceOf r with
    | none => rw [hp] at h; cases h
    | some p =>
      rw [hp] at h
      cases hk : keyRecords rs with
      | none => rw [hk] at h; cases h
      | some ks' =>
        rw [hk] at h
        cases h
        obtain ⟨hmap, hall⟩ := keyRecords_map_snd rs ks' hk
        refine ⟨by simp [hmap], ?_⟩
        intro x hx
        rcases List.mem_cons.mp hx with h' | h'
        · rw [h']
          exact hp
        · exact hall x h'

theorem keyRecords_none : ∀ (rs : List DataRecord) (r : DataRecord),
    r ∈ rs → priceOf r = none → keyRecords rs = none
  | [], r, hr, _ => by cases hr
  | r' :: rs, r, hr, hbad => by
    rw [keyRecords]
    rcases List.mem_cons.mp hr with h | h
    · rw [← h, hbad]
    · cases hp : priceOf r' with
      | none => rfl
      | some p => rw [keyRecords_none rs r h hbad]; rfl

theorem keyRecords_total : ∀ rs : List DataRecord,
    (∀ r ∈ rs, (priceOf r).isSome) → ∃ ks, keyRecords rs = some ks
  | [], _ => ⟨[], rfl⟩
  | r :: rs, h => by
    obtain ⟨p, hp⟩ := Option.isSome_iff_exists.mp (h r (List.mem_cons_self _ _))
    obtain ⟨ks, hks⟩ :=
      keyRecords_total rs (fun x hx => h x (List.mem_cons_of_mem _ hx))
    exact ⟨(p, r) :: ks, by rw [keyRecords, hp, hks]; rfl⟩

theorem highest_error_head (r0 : DataRecord) (rs : List DataRecord)
    (h : priceOf r0 = none) :
    get_highest_price_agg (r0 :: rs) = .error ("failed_to_retrieve") := by
  unfold get_highest_price_agg
  dsimp only
  rw [h]

theorem highest_error_tail (r0 : DataRecord) (rs : List DataRecord)
    (h : keyRecords rs = none) :
    get_highest_price_agg (r0 :: rs) = .error ("failed_to_retrieve") := by
  unfold get_highest_price_agg
  dsimp only
  rw [h]
  cases priceOf r0 <;> rfl

theorem lowest_error_head (r0 : DataRecord) (rs : List DataRecord)
    (h : priceOf r0 = none) :
    get_lowest_price_agg (r0 :: rs) = .error ("failed_to_retrieve") := by
  unfold get_lowest_price_agg
  dsimp only
  rw [h]

theorem lowest_error_tail (r0 : DataRecord) (rs : List DataRecord)
    (h : keyRecords rs = none) :
    get_lowest_price_agg (r0 :: rs) = .error ("failed_to_retrieve") := by
  unfold get_lowest_price_agg
  dsimp only
  rw [h]
  cases priceOf r0 <;> rfl

/-- C3, counterexample: the claim says a record with a missing or
non-numeric `resale_price` is treated as absent; in the code the key
function `float(x["resale_price"])` raises for such a record inside
`max(...)`, so the whole aggregation returns the generic failure error
dict instead of the maximum over the remaining records: adding an
empty record flips the result from the correct maximum to an error. -/
theorem C3_counterexample :
    get_highest_price_agg [[(priceField, ("10"))], []] = .error ("failed_to_retrieve") ∧
    get_highest_price_agg [[(priceField, ("10"))]] =
      .ok (10, [(priceField, ("10"))]) := by
  constructor <;> rfl

/-- C3, amended: on an empty record set both extremum aggregations
return the no-records error; when some record's `resale_price` is
missing or non-numeric the whole aggregation fails with the generic
failure error (the record is not skipped); when every record's price
parses, the aggregations return a record of the set attaining the
maximum (resp. minimum) numeric price. -/
theorem C3_amended (records : List DataRecord) :
    (records = [] →
      get_highest_price_agg records = .error ("no_records_found") ∧
      get_lowest_price_agg records = .error ("no_records_found")) ∧
    ((∃ r ∈ records, priceOf r = none) →
      get_highest_price_agg records = .error ("failed_to_retrieve") ∧
      get_lowest_price_agg records = .error ("failed_to_retrieve")) ∧
    (records ≠ [] → (∀ r ∈ records, (priceOf r).isSome) →
      (∃ p r, get_highest_price_agg records = .ok (p, r) ∧ r ∈ records ∧
        priceOf r = some p ∧
        ∀ r' ∈ records, ∀ p', priceOf r' = some p' → p' ≤ p) ∧
      (∃ p r, get_lowest_price_agg records = .ok (p, r) ∧ r ∈ records ∧
        priceOf r = some p ∧
        ∀ r' ∈ records, ∀ p', priceOf r' = some p' → p ≤ p')) := by
  refine ⟨?_, ?_, ?_⟩
  · rintro rfl
    exact ⟨rfl, rfl⟩
  · rintro ⟨r, hr, hbad⟩
    cases records with
    | nil => cases hr
    | cons r0 rs =>
      rcases List.mem_cons.mp hr with h | h
      · rw [h] at hbad
        exact ⟨highest_error_head r0 rs hbad, lowest_error_head r0 rs hbad⟩
      · have hk := keyRecords_none rs r h hbad
        exact ⟨highest_error_tail r0 rs hk, lowest_error_tail r0 rs hk⟩
  · intro hne hall
    cases records with
    | nil => exact absurd rfl hne
    | cons r0 rs =>
      obtain ⟨p0, hp0⟩ :=
        Option.isSome_iff_exists.mp (hall r0 (List.mem_cons_self _ _))
      obtain ⟨ks, hks⟩ :=
        keyRecords_total rs (fun x hx => hall x (List.mem_cons_of_mem _ hx))
      obtain ⟨hmap, hkeyed⟩ := keyRecords_map_snd rs ks hks
      have hmemiff : ∀ x : Int × DataRecord, x ∈ (p0, r0) :: ks →
          x.2 ∈ r0 :: rs ∧ priceOf x.2 = some x.1 := by
        intro x hx
        rcases List.mem_cons.mp hx with h | h
        · rw [h]
          exact ⟨List.mem_cons_self _ _, hp0⟩
        · refine ⟨List.mem_cons_of_mem _ ?_, hkeyed x h⟩
          rw [← hmap]
          exact List.mem_map_of_mem Prod.snd h
      have hcover : ∀ r' ∈ r0 :: rs, ∀ p', priceOf r' = some p' →
          (p', r') ∈ (p0, r0) :: ks := by
        intro r' hr' p' hp'
        rcases List.mem_cons.mp hr' with h | h
        · have h1 : priceOf r0 = some p' := by rw [← h]; exact hp'
          rw [hp0] at h1
          have h2 : p' = p0 := (Option.some.inj h1).symm
          rw [h2, h]
          exact List.mem_cons_self _ _
        · rw [← hmap] at h
          obtain ⟨x, hx, hx2⟩ := List.mem_map.mp h
          have hpx := hkeyed x hx
          rw [hx2] at hpx
          rw [hpx] at hp'
          have hp1 : x.1 = p' := Option.some.inj hp'
          have hxx : (p', r') = x := by
            rw [← hp1, ← hx2]
          rw [hxx]
          exact List.mem_cons_of_mem _ hx
      constructor
      · have hm := pyMaxBy_mem (p0, r0) ks
        obtain ⟨hmem2, hprice⟩ := hmemiff _ hm
        refine ⟨(pyMaxBy (p0, r0) ks).1, (pyMaxBy (p0, r0) ks).2, ?_, hmem2, hprice, ?_⟩
        · unfold get_highest_price_agg
          dsimp only
          rw [hp0, hks]
        · intro r' hr' p' hp'
          exact pyMaxBy_le (p0, r0) ks (p', r') (hcover r' hr' p' hp')
      · have hm := pyMinBy_mem (p0, r0) ks
        obtain ⟨hmem2, hprice⟩ := hmemiff _ hm
        refine ⟨(pyMinBy (p0, r0) ks).1, (pyMinBy (p0, r0) ks).2, ?_, hmem2, hprice, ?_⟩
        · unfold get_lowest_price_agg
          dsimp only
          rw [hp0, hks]
        · intro r' hr' p' hp'
          exact pyMinBy_ge (p0, r0) ks (p', r') (hcover r' hr' p' hp')

/-- Witness for C3: the amended theorem applied to the empty record
set and to a concrete record set containing a non-numeric price. -/
theorem C3_witness :
    (get_highest_price_agg [] = .error ("no_records_found") ∧
     get_lowest_price_agg [] = .error ("no_records_found")) ∧
    (get_highest_price_agg [[(priceField, ("abc"))]] = .error ("failed_to_retrieve") ∧
     get_lowest_price_agg [[(priceField, ("abc"))]] = .error ("failed_to_retrieve")) := by
  constructor
  · exact (C3_amended []).1 rfl
  · exact (C3_amended [[(priceField, ("abc"))]]).2.1
      ⟨[(priceField, ("abc"))], List.mem_singleton_self _, by rfl⟩

/-! ## Claim C5 — cache key is insertion-order and budget independent -/

theorem insertionSort_keyLE_eq (f₁ f₂ : List (String × String))
    (hperm : f₁.Perm f₂) (hnd : (f₁.map Prod.fst).Nodup) :
    f₁.insertionSort keyLE = f₂.insertionSort keyLE := by
  haveI : IsTotal (String × String) keyLE :=
    ⟨fun a b => charListLE_total a.1.data b.1.data⟩
  haveI : IsTrans (String × String) keyLE :=
    ⟨fun a b c => charListLE_trans a.1.data b.1.data c.1.data⟩
  haveI : IsAntisymm (String × String) keyLT := ⟨by
    rintro a b ⟨hab, hne⟩ ⟨hba, _⟩
    exact absurd (string_eq_of_data_eq (charListLE_antisymm _ _ hab hba)) hne⟩
  have hp : List.Perm (List.insertionSort keyLE f₁) (List.insertionSort keyLE f₂) :=
    ((List.perm_insertionSort keyLE f₁).trans hperm).trans
      (List.perm_insertionSort keyLE f₂).symm
  have hnd₂ : (f₂.map Prod.fst).Nodup := ((hperm.map Prod.fst).nodup_iff).mp hnd
  have hsorted : ∀ l : List (String × String), (l.map Prod.fst).Nodup →
      List.Sorted keyLT (List.insertionSort keyLE l) := by
    intro l hl
    have hs : List.Sorted keyLE (List.insertionSort keyLE l) :=
      List.sorted_insertionSort keyLE l
    have hnds : ((List.insertionSort keyLE l).map Prod.fst).Nodup :=
      ((List.perm_insertionSort keyLE l).map Prod.fst).nodup_iff.mpr hl
    have hpw : List.Pairwise (fun a b : String × String => a.1 ≠ b.1)
        (List.insertionSort keyLE l) := List.pairwise_map.mp hnds
    exact hs.and hpw
  exact List.eq_of_perm_of_sorted hp (hsorted f₁ hnd) (hsorted f₂ hnd₂)

theorem generate_cache_key_perm (year : String) (f₁ f₂ : List (String × String))
    (hperm : f₁.Perm f₂) (hnd : (f₁.map Prod.fst).Nodup) :
    generate_cache_key year f₁ = generate_cache_key year f₂ := by
  have h : jsonDumpsSorted f₁ = jsonDumpsSorted f₂ := by
    unfold jsonDumpsSorted
    rw [insertionSort_keyLE_eq f₁ f₂ hperm hnd]
  unfold generate_cache_key
  rw [h]

/-- C5: two queries with the same partition value and the same filter
set (the same field/value pairs in any insertion order, fields not
repeated) produce the same cache key — the record budget takes no part
in the key — and therefore, after a first retrieval that produced a
non-empty record set, a second query with the permuted filter
dictionary and any budget is answered from the cache with zero page
requests, even against a different (here: arbitrary) upstream. -/
theorem C5_cache_key (api api' : Api) (fuel fuel' : Nat) (cache : CacheT)
    (year : String) (f₁ f₂ : List (String × String)) (max₁ max₂ : Nat)
    (hperm : f₁.Perm f₂) (hnd : (f₁.map Prod.fst).Nodup) :
    generate_cache_key year f₁ = generate_cache_key year f₂ ∧
    ((fetch_data_by_year_optimized api fuel cache year f₁ max₁).1 ≠ [] →
      fetch_data_by_year_optimized api' fuel'
          (fetch_data_by_year_optimized api fuel cache year f₁ max₁).2.1 year f₂ max₂ =
        ((fetch_data_by_year_optimized api fuel cache year f₁ max₁).1,
         (fetch_data_by_year_optimized api fuel cache year f₁ max₁).2.1,
         .cacheHit, 0)) := by
  have hkey := generate_cache_key_perm year f₁ f₂ hperm hnd
  refine ⟨hkey, fun hne => ?_⟩
  have hcommit := fetch_commits api fuel cache year f₁ max₁ hne
  exact fetch_hit api' fuel' _ year f₂ max₂ _ (by rw [← hkey]; exact hcommit)

/-- Witness for C5: a first fetch with town-then-flat_type filters
populates the cache from Tier A; the same query with the filters in
the opposite order and a different budget is served from the cache
with zero page requests, even against a fully failing upstream. -/
theorem C5_witness :
    fetch_data_by_year_optimized apiDown 7
        (fetch_data_by_year_optimized apiOne 3 [] ("2024") fW1 10).2.1
        ("2024") fW2 9999 =
      ((fetch_data_by_year_optimized apiOne 3 [] ("2024") fW1 10).1,
       (fetch_data_by_year_optimized apiOne 3 [] ("2024") fW1 10).2.1,
       .cacheHit, 0) :=
  (C5_cache_key apiOne apiDown 3 7 [] ("2024") fW1 fW2 10 9999
    (by decide) (by decide)).2 (by decide)

/-! ## Claim C2 — record budgets bound each tier -/

theorem fetch_api_go_bound (api : Api) (year : String)
    (filters : List (String × String)) (maxRecords : Nat)
    (hapi : ∀ off lim fs records, api off lim fs = .ok records → records.length ≤ lim) :
    ∀ fuel offset acc calls records calls',
      acc.length < maxRecords + 1000 →
      fetch_with_api_filters_go api year filters maxRecords fuel offset acc calls =
        (.ok records, calls') →
      records.length < maxRecords + 1000 := by
  intro fuel
  induction fuel with
  | zero =>
    intro offset acc calls records calls' hacc heq
    simp only [fetch_with_api_filters_go, Prod.mk.injEq] at heq
    obtain ⟨h1, -⟩ := heq
    injection h1 with h1
    rw [← h1]
    exact hacc
  | succ n ih =>
    intro offset acc calls records calls' hacc heq
    simp only [fetch_with_api_filters_go] at heq
    by_cases hlt : acc.length < maxRecords
    · rw [if_pos hlt] at heq
      cases hres : api offset 1000 filters with
      | ok recs =>
        rw [hres] at heq
        dsimp only at heq
        have hlen : recs.length ≤ 1000 := hapi _ _ _ _ hres
        by_cases hnil : recs = []
        · rw [if_pos hnil] at heq
          simp only [Prod.mk.injEq] at heq
          obtain ⟨h1, -⟩ := heq
          injection h1 with h1
          rw [← h1]
          exact hacc
        · rw [if_neg hnil] at heq
          have hacc' : (acc ++ recs.filter (matchesYear year)).length <
              maxRecords + 1000 := by
            have := List.length_filter_le (matchesYear year) recs
            simp only [List.length_append]
            omega
          by_cases hshort : recs.length < 1000
          · rw [if_pos hshort] at heq
            simp only [Prod.mk.injEq] at heq
            obtain ⟨h1, -⟩ := heq
            injection h1 with h1
            rw [← h1]
            exact hacc'
          · rw [if_neg hshort] at heq
            exact ih _ _ _ _ _ hacc' heq
      | httpError =>
        rw [hres] at heq
        simp at heq
      | apiError =>
        rw [hres] at heq
        simp at heq
      | timeout =>
        rw [hres] at heq
        simp at heq
      | exn =>
        rw [hres] at heq
        simp at heq
    · rw [if_neg hlt] at heq
      simp only [Prod.mk.injEq] at heq
      obtain ⟨h1, -⟩ := heq
      injection h1 with h1
      rw [← h1]
      exact hacc

theorem fetch_chunked_go_bound (api : Api) (year : String)
    (filters : List (String × String)) (maxRecords : Nat)
    (hapi : ∀ off lim fs records, api off lim fs = .ok records → records.length ≤ lim) :
    ∀ fuel offset emptyChunks acc calls,
      acc.length < maxRecords + 500 →
      (fetch_chunked_go api year filters maxRecords fuel offset emptyChunks
        acc calls).1.length < maxRecords + 500 := by
  intro fuel
  induction fuel with
  | zero =>
    intro offset emptyChunks acc calls hacc
    simpa only [fetch_chunked_go] using hacc
  | succ n ih =>
    intro offset emptyChunks acc calls hacc
    simp only [fetch_chunked_go]
    by_cases hcond : acc.length < maxRecords ∧ emptyChunks < 5
    · rw [if_pos hcond]
      cases hres : api offset 500 filters with
      | ok recs =>
        dsimp only
        have hlen : recs.length ≤ 500 := hapi _ _ _ _ hres
        by_cases hnil : recs = []
        · rw [if_pos hnil]
          exact ih _ _ _ _ hacc
        · rw [if_neg hnil]
          by_cases hyr : recs.filter (matchesYear year) = []
          · rw [if_pos hyr, if_pos hyr]
            by_cases hshort : recs.length < 500
            · rw [if_pos hshort]
              exact hacc
            · rw [if_neg hshort]
              exact ih _ _ _ _ hacc
          · rw [if_neg hyr, if_neg hyr]
            have hacc' : (acc ++ recs.filter (matchesYear year)).length <
                maxRecords + 500 := by
              have := List.length_filter_le (matchesYear year) recs
              simp only [List.length_append]
              omega
            by_cases hshort : recs.length < 500
            · rw [if_pos hshort]
              exact hacc'
            · rw [if_neg hshort]
              exact ih _ _ _ _ hacc'
      | httpError => exact hacc
      | apiError => exact hacc
      | timeout => exact hacc
      | exn => exact ih _ _ _ _ hacc
    · rw [if_neg hcond]
      exact hacc

theorem fetch_limited_go_bound (api : Api) (year : String)
    (filters : List (String × String))
    (hapi : ∀ off lim fs records, api off lim fs = .ok records → records.length ≤ lim) :
    ∀ remaining attempt acc calls,
      (fetch_limited_go api year filters remaining attempt acc calls).1.length ≤
        acc.length + remaining * 1000 := by
  intro remaining
  induction remaining with
  | zero =>
    intro attempt acc calls
    simp [fetch_limited_go]
  | succ n ih =>
    intro attempt acc calls
    simp only [fetch_limited_go]
    cases hres : api (attempt * 1000) 1000 filters with
    | ok recs =>
      dsimp only
      have hlen : recs.length ≤ 1000 := hapi _ _ _ _ hres
      by_cases hnil : recs = []
      · rw [if_pos hnil]
        show acc.length ≤ acc.length + (n + 1) * 1000
        omega
      · rw [if_neg hnil]
        have hflt := List.length_filter_le (matchesYear year) recs
        by_cases hstop : recs.filter (matchesYear year) ≠ [] ∧
            100 ≤ (acc ++ recs.filter (matchesYear year)).length
        · rw [if_pos hstop]
          simp only [List.length_append]
          omega
        · rw [if_neg hstop]
          have := ih (attempt + 1) (acc ++ recs.filter (matchesYear year)) (calls + 1)
          simp only [List.length_append] at this
          omega
    | httpError => exact le_trans (ih _ _ _) (by omega)
    | apiError => exact le_trans (ih _ _ _) (by omega)
    | timeout => exact le_trans (ih _ _ _) (by omega)
    | exn => exact le_trans (ih _ _ _) (by omega)

set_option maxRecDepth 10000 in
/-- C2, counterexample: a Tier B fetch with budget 50 against an
upstream holding 10000 partition-matching records in full pages of 500
returns 500 records — ten times the budget.  The loop stops issuing
pages once the budget is reached but never truncates the page that
overshot it. -/
theorem C2_counterexample :
    fetch_chunked_with_year_filter apiPages ("2024") [] 50 3 =
      (List.replicate 500 recA, 1) ∧
    50 < (List.replicate 500 recA).length := by
  constructor
  · decide
  · decide

/-- C2, amended: each tier stops requesting further pages once the
budget is reached but does not truncate the final page, so (for an
upstream that respects the requested page size) Tier A returns fewer
than budget + 1000 records, Tier B returns fewer than budget + 500
records, and Tier C ignores the budget entirely, bounded only by its
10 fixed attempts of up to 1000 records each. -/
theorem C2_amended (api : Api) (year : String) (filters : List (String × String))
    (maxRecords fuel : Nat)
    (hapi : ∀ off lim fs records, api off lim fs = .ok records → records.length ≤ lim) :
    (∀ records calls,
      fetch_with_api_filters api year filters maxRecords fuel = (.ok records, calls) →
      records.length < maxRecords + 1000) ∧
    (fetch_chunked_with_year_filter api year filters maxRecords fuel).1.length <
      maxRecords + 500 ∧
    (fetch_limited api year filters).1.length ≤ 10000 := by
  refine ⟨?_, ?_, ?_⟩
  · intro records calls heq
    exact fetch_api_go_bound api year filters maxRecords hapi fuel 0 [] 0 records calls
      (by simp) heq
  · exact fetch_chunked_go_bound api year filters maxRecords hapi fuel 0 0 [] 0 (by simp)
  · exact le_trans (fetch_limited_go_bound api year filters hapi 10 0 [] 0) (by simp)

/-- Witness for C2: the amended bound applied to the concrete
10000-record upstream with budget 50: Tier B returns fewer than 550
records. -/
theorem C2_witness :
    (fetch_chunked_with_year_filter apiPages ("2024") [] 50 3).1.length < 550 :=
  (C2_amended apiPages ("2024") [] 50 3 (by
    intro off lim fs records h
    unfold apiPages at h
    by_cases hoff : off < 10000
    · rw [if_pos hoff] at h
      injection h with h
      rw [← h]
      simp only [List.length_replicate]
      exact Nat.min_le_right 500 lim
    · rw [if_neg hoff] at h
      injection h with h
      rw [← h]
      simp)).2.1

/-! ## Claim C6 — Tier B termination conditions -/

theorem filter_replicate_neg {p : DataRecord → Bool} {a : DataRecord} (n : Nat)
    (h : p a = false) : (List.replicate n a).filter p = [] := by
  induction n with
  | zero => rfl
  | succ m ih => simp [List.replicate_succ, List.filter_cons, h, ih]

theorem fetch_chunked_go_empty_run (api : Api) (year : String)
    (filters : List (String × String)) (maxRecords : Nat)
    (pages : Nat → List DataRecord)
    (hpage : ∀ off, api off 500 filters = .ok (pages off))
    (hlen : ∀ off, (pages off).length = 500)
    (hfilter : ∀ off, (pages off).filter (matchesYear year) = [])
    (hmax : 0 < maxRecords) :
    ∀ fuel emptyChunks offset calls, emptyChunks ≤ 5 → 6 - emptyChunks ≤ fuel →
      fetch_chunked_go api year filters maxRecords fuel offset emptyChunks [] calls =
        ([], calls + (5 - emptyChunks)) := by
  intro fuel
  induction fuel with
  | zero =>
    intro emptyChunks offset calls h5 hf
    exact absurd hf (by omega)
  | succ n ih =>
    intro emptyChunks offset calls h5 hf
    by_cases he : emptyChunks = 5
    · subst he
      simp only [fetch_chunked_go]
      rw [if_neg (by simp)]
      simp
    · have he5 : emptyChunks < 5 := by omega
      have hne : pages offset ≠ [] := by
        intro hn
        have hl := hlen offset
        rw [hn] at hl
        simp at hl
      simp only [fetch_chunked_go]
      rw [if_pos ⟨by simpa using hmax, he5⟩, hpage offset]
      dsimp only
      rw [if_neg hne, hfilter offset]
      have hnl : ¬ (pages offset).length < 500 := by
        rw [hlen offset]
        omega
      simp only [eq_self_iff_true, if_true, List.append_nil, if_neg hnl]
      rw [ih (emptyChunks + 1) (offset + 500) (calls + 1) (by omega) (by omega)]
      have : calls + 1 + (5 - (emptyChunks + 1)) = calls + (5 - emptyChunks) := by omega
      rw [this]

/-- C6, counterexample: the claim says an isolated page failure is
counted as an empty page with the offset advanced rather than aborting
the tier.  Against an upstream whose page at offset 0 is empty, whose
page at offset 500 fails with an HTTP error, and whose pages from
offset 1000 onwards hold matching records, Tier B aborts at the HTTP
error after exactly 2 page requests, returning no records — it never
advances to offset 1000 (the budget 50000 is unmet and only one
consecutive empty page was seen). -/
theorem C6_counterexample :
    fetch_chunked_with_year_filter apiAbort ("2024") [] 50000 10 = ([], 2) := by
  decide

/-- C6, amended: Tier B stops after exactly 5 consecutive
empty-after-filter pages, without error and even though the budget is
unmet; but a page failing with an HTTP error, an upstream-reported
failure, or a timeout aborts the tier immediately with the records
accumulated so far; only other raised exceptions are counted as empty
pages with the offset advanced. -/
theorem C6_amended (api : Api) (year : String) (filters : List (String × String))
    (maxRecords : Nat) :
    (∀ (pages : Nat → List DataRecord) (fuel : Nat),
      0 < maxRecords → 6 ≤ fuel →
      (∀ off, api off 500 filters = .ok (pages off)) →
      (∀ off, (pages off).length = 500) →
      (∀ off, (pages off).filter (matchesYear year) = []) →
      fetch_chunked_with_year_filter api year filters maxRecords fuel = ([], 5)) ∧
    (∀ fuel offset emptyChunks acc calls,
      acc.length < maxRecords → emptyChunks < 5 →
      (api offset 500 filters = .httpError ∨ api offset 500 filters = .apiError ∨
       api offset 500 filters = .timeout) →
      fetch_chunked_go api year filters maxRecords (fuel + 1) offset emptyChunks acc calls =
        (acc, calls + 1)) ∧
    (∀ fuel offset emptyChunks acc calls,
      acc.length < maxRecords → emptyChunks < 5 →
      api offset 500 filters = .exn →
      fetch_chunked_go api year filters maxRecords (fuel + 1) offset emptyChunks acc calls =
        fetch_chunked_go api year filters maxRecords fuel (offset + 500)
          (emptyChunks + 1) acc (calls + 1)) := by
  refine ⟨?_, ?_, ?_⟩
  · intro pages fuel hmax hfuel hpage hlen hfilter
    unfold fetch_chunked_with_year_filter
    rw [fetch_chunked_go_empty_run api year filters maxRecords pages hpage hlen hfilter
      hmax fuel 0 0 0 (by omega) (by omega)]
  · intro fuel offset emptyChunks acc calls hacc he hres
    simp only [fetch_chunked_go]
    rw [if_pos ⟨hacc, he⟩]
    rcases hres with h | h | h <;> rw [h]
  · intro fuel offset emptyChunks acc calls hacc he hres
    simp only [fetch_chunked_go]
    rw [if_pos ⟨hacc, he⟩, hres]

set_option maxRecDepth 10000 in
/-- Witness for C6: the amended theorem applied to a concrete upstream
serving unboundedly many full pages of non-matching records (Tier B
returns empty after exactly 5 page requests) and to the concrete
HTTP-failing upstream at offset 500 (the tier aborts on that page). -/
theorem C6_witness :
    fetch_chunked_with_year_filter apiNoMatch ("2024") [] 50000 10 = ([], 5) ∧
    fetch_chunked_go apiAbort ("2024") [] 50000 4 500 1 [] 1 = ([], 2) := by
  constructor
  · exact (C6_amended apiNoMatch ("2024") [] 50000).1
      (fun _ => List.replicate 500 recOld) 10 (by omega) (by omega)
      (fun off => rfl) (fun off => by simp [List.length_replicate])
      (fun off => filter_replicate_neg 500 (by decide))
  · exact (C6_amended apiAbort ("2024") [] 50000).2.1 3 500 1 [] 1
      (by simp) (by omega) (Or.inl (by decide))

/-! ## Claim C7 — lease-remaining computation, discard count -/

theorem pyFloat_empty : pyFloat ("") = none := rfl

theorem leaseInfoOf_some (currentYear : Int) (r : DataRecord) (c rem : Int)
    (h : leaseInfoOf currentYear r = some (c, rem)) :
    0 < c ∧ c ≤ currentYear ∧ 0 ≤ rem ∧ rem ≤ 99 ∧
      rem = 99 - (currentYear - c) := by
  unfold leaseInfoOf at h
  cases hlook : r.lookup leaseField with
  | none =>
    rw [hlook] at h
    cases h
  | some raw =>
    rw [hlook] at h
    dsimp only at h
    by_cases hraw : raw = ""
    · rw [if_pos hraw] at h
      cases h
    · rw [if_neg hraw] at h
      cases hpf : pyFloat raw with
      | none =>
        rw [hpf] at h
        cases h
      | some cy =>
        rw [hpf] at h
        dsimp only at h
        by_cases h1 : cy ≤ 0 ∨ currentYear < cy
        · rw [if_pos h1] at h
          cases h
        · rw [if_neg h1] at h
          by_cases h2 : 99 - (currentYear - cy) < 0 ∨ 99 < 99 - (currentYear - cy)
          · rw [if_pos h2] at h
            cases h
          · rw [if_neg h2] at h
            injection h with h
            injection h with ha hb
            push_neg at h1 h2
            subst ha
            subst hb
            omega

theorem leaseInfoOf_none_iff (currentYear : Int) (r : DataRecord) (raw : String)
    (cy : Int) (hcy : 100 ≤ currentYear)
    (hlook : r.lookup leaseField = some raw) (hpf : pyFloat raw = some cy) :
    leaseInfoOf currentYear r = none ↔
      (99 - (currentYear - cy) < 0 ∨ 99 < 99 - (currentYear - cy)) := by
  have hraw : raw ≠ "" := by
    intro he
    rw [he, pyFloat_empty] at hpf
    cases hpf
  unfold leaseInfoOf
  rw [hlook]
  dsimp only
  rw [if_neg hraw, hpf]
  dsimp only
  by_cases h1 : cy ≤ 0 ∨ currentYear < cy
  · rw [if_pos h1]
    constructor
    · intro _
      rcases h1 with h1 | h1
      · left
        omega
      · right
        omega
    · intro _
      rfl
  · rw [if_neg h1]
    push_neg at h1
    by_cases h2 : 99 - (currentYear - cy) < 0 ∨ 99 < 99 - (currentYear - cy)
    · rw [if_pos h2]
      exact ⟨fun _ => h2, fun _ => rfl⟩
    · rw [if_neg h2]
      constructor
      · intro hcon
        cases hcon
      · intro hcon
        exact absurd hcon h2

theorem leaseScan_count (currentYear minLease : Int) :
    ∀ records : List DataRecord,
      100 ≤ currentYear →
      (∀ r ∈ records, ∃ raw cy,
        r.lookup leaseField = some raw ∧ pyFloat raw = some cy) →
      (leaseScan currentYear minLease records).2 =
        outOfRangeCount currentYear records := by
  intro records
  induction records with
  | nil => intro _ _; rfl
  | cons r rs ih =>
    intro hcy hall
    obtain ⟨raw, cy, hlook, hpf⟩ := hall r (List.mem_cons_self _ _)
    have ihr := ih hcy (fun x hx => hall x (List.mem_cons_of_mem _ hx))
    have hpred : (match (r.lookup leaseField).bind pyFloat with
        | some commenceYear =>
          decide (99 - (currentYear - commenceYear) < 0 ∨
                  99 < 99 - (currentYear - commenceYear))
        | none => false) =
        decide (99 - (currentYear - cy) < 0 ∨ 99 < 99 - (currentYear - cy)) := by
      rw [hlook, Option.some_bind, hpf]
    unfold outOfRangeCount
    rw [List.countP_cons]
    unfold outOfRangeCount at ihr
    cases hinfo : leaseInfoOf currentYear r with
    | none =>
      have hrange := (leaseInfoOf_none_iff currentYear r raw cy hcy hlook hpf).mp hinfo
      unfold leaseScan
      rw [hinfo]
      dsimp only
      rw [ihr, hpred]
      rw [decide_eq_true hrange]
      simp
    | some info =>
      have hrange : ¬ (99 - (currentYear - cy) < 0 ∨
          99 < 99 - (currentYear - cy)) := by
        intro hcon
        rw [(leaseInfoOf_none_iff currentYear r raw cy hcy hlook hpf).mpr hcon] at hinfo
        cases hinfo
      unfold leaseScan
      rw [hinfo]
      dsimp only
      cases info with
      | mk c rem =>
        rw [hpred, decide_eq_false hrange]
        by_cases hq : minLease ≤ rem
        · rw [if_pos hq]
          dsimp only
          rw [ihr]
          simp
        · rw [if_neg hq]
          rw [ihr]
          simp

theorem leaseScan_mem (currentYear minLease : Int) :
    ∀ (records : List DataRecord) (f : FlatInfo),
      f ∈ (leaseScan currentYear minLease records).1 →
      minLease ≤ f.leaseRemaining ∧ 0 ≤ f.leaseRemaining ∧ f.leaseRemaining ≤ 99 ∧
        f.leaseRemaining = 99 - (currentYear - f.leaseCommence) := by
  intro records
  induction records with
  | nil => intro f hf; cases hf
  | cons r rs ih =>
    intro f hf
    unfold leaseScan at hf
    cases hinfo : leaseInfoOf currentYear r with
    | none =>
      rw [hinfo] at hf
      exact ih f hf
    | some info =>
      rw [hinfo] at hf
      cases info with
      | mk c rem =>
        dsimp only at hf
        by_cases hq : minLease ≤ rem
        · rw [if_pos hq] at hf
          rcases List.mem_cons.mp hf with h | h
          · obtain ⟨h1, h2, h3, h4, h5⟩ := leaseInfoOf_some currentYear r c rem hinfo
            rw [h]
            exact ⟨hq, h3, h4, h5⟩
          · exact ih f h
        · rw [if_neg hq] at hf
          exact ih f hf

/-- C7, counterexample: the claim says the reported discard count
equals the number of records whose computed lease value falls outside
[0, 99], for records whose commence field is present and numeric.  For
query year "50" (accepted by the code, which only requires `int(year)`
to succeed) and a record with the present, numeric commence value "0",
the computed value 99 - (50 - 0) = 49 lies inside [0, 99], yet the
record is discarded by the `lease_commence_year <= 0` guard: the
discard count is 1 while the out-of-range count is 0. -/
theorem C7_counterexample :
    (get_flats_by_lease_remaining_core 50 1 50 [[(leaseField, ("0"))]]).2 = 1 ∧
    outOfRangeCount 50 [[(leaseField, ("0"))]] = 0 ∧
    (([(leaseField, ("0"))] : DataRecord).lookup leaseField).bind pyFloat = some 0 := by
  refine ⟨by decide, by decide, by decide⟩

/-- C7, amended: for a query year of at least 100 (every realistic
year), over records whose commence field is present and numeric, the
reported discard count equals the number of records whose computed
value 99 - (current_year - commence_year) falls outside [0, 99], and
every returned flat satisfies min_lease ≤ lease_remaining ∈ [0, 99]
with lease_remaining computed by exactly that formula.  (For a year
below 100, a record with a nonpositive commence value is discarded
even when its computed value is in range.) -/
theorem C7_amended (currentYear minLease : Int) (limit : Nat)
    (records : List DataRecord) (hcy : 100 ≤ currentYear)
    (hall : ∀ r ∈ records, ∃ raw cy,
      r.lookup leaseField = some raw ∧ pyFloat raw = some cy) :
    (get_flats_by_lease_remaining_core currentYear minLease limit records).2 =
      outOfRangeCount currentYear records ∧
    ∀ f ∈ (get_flats_by_lease_remaining_core currentYear minLease limit records).1,
      minLease ≤ f.leaseRemaining ∧ 0 ≤ f.leaseRemaining ∧ f.leaseRemaining ≤ 99 ∧
        f.leaseRemaining = 99 - (currentYear - f.leaseCommence) := by
  constructor
  · exact leaseScan_count currentYear minLease records hcy hall
  · intro f hf
    unfold get_flats_by_lease_remaining_core at hf
    dsimp only at hf
    have hf1 := List.take_subset limit _ hf
    have hf2 : f ∈ (leaseScan currentYear minLease records).1 :=
      (List.mem_insertionSort leaseGE).mp hf1
    exact leaseScan_mem currentYear minLease records f hf2

/-- Witness for C7: the amended theorem applied to year 2024 with one
in-range record (commence 2020, remaining 95) and one out-of-range
record (commence 1900, remaining -25): the discard count equals the
out-of-range count 1. -/
theorem C7_witness :
    (get_flats_by_lease_remaining_core 2024 90 50
        [[(leaseField, ("2020"))], [(leaseField, ("1900"))]]).2 =
      outOfRangeCount 2024 [[(leaseField, ("2020"))], [(leaseField, ("1900"))]] ∧
    outOfRangeCount 2024 [[(leaseField, ("2020"))], [(leaseField, ("1900"))]] = 1 := by
  constructor
  · exact (C7_amended 2024 90 50 [[(leaseField, ("2020"))], [(leaseField, ("1900"))]]
      (by omega) (by
        intro r hr
        rcases List.mem_cons.mp hr with h | h
        · exact ⟨("2020"), 2020, by rw [h]; decide, by decide⟩
        · rcases List.mem_cons.mp h with h' | h'
          · exact ⟨("1900"), 1900, by rw [h']; decide, by decide⟩
          · cases h')).1
  · decide

end HDBResale
